import Mathlib

/-!
# SentinelVNC — verification of the specification against the source

Shallow embedding of the SentinelVNC repository (VNC security proxy,
hybrid rule/ML detector, Merkle forensic anchoring) in Lean 4, together
with theorems settling the specification's claims.

Python floats appearing in the source (timestamps, rates, ML scores) are
modelled as rationals; Python byte strings and hex digests as Lean
strings; Python dict/list state as Lean structures with explicit state
passing, and in-place list mutation as an explicitly returned list value.
-/

set_option maxRecDepth 100000

namespace SentinelVNC

/-! ## SHA-256 (hashlib.sha256(...).hexdigest())

A complete executable SHA-256 over byte lists, with 32-bit words as `Nat`
reduced mod 2^32, so that `hashlib.sha256(data.encode('utf-8')).hexdigest()`
is modelled exactly. -/

def w32 : Nat := 4294967296

def add32 (a b : Nat) : Nat := (a + b) % w32

def rotr32 (n x : Nat) : Nat := ((x >>> n) ||| (x <<< (32 - n))) % w32

def bsig0 (x : Nat) : Nat := (rotr32 2 x) ^^^ (rotr32 13 x) ^^^ (rotr32 22 x)

def bsig1 (x : Nat) : Nat := (rotr32 6 x) ^^^ (rotr32 11 x) ^^^ (rotr32 25 x)

def ssig0 (x : Nat) : Nat := (rotr32 7 x) ^^^ (rotr32 18 x) ^^^ (x >>> 3)

def ssig1 (x : Nat) : Nat := (rotr32 17 x) ^^^ (rotr32 19 x) ^^^ (x >>> 10)

def chooseFn (x y z : Nat) : Nat := (x &&& y) ^^^ ((x ^^^ (w32 - 1)) &&& z)

def majFn (x y z : Nat) : Nat := (x &&& y) ^^^ (x &&& z) ^^^ (y &&& z)

def sha256K : List Nat :=
  [1116352408, 1899447441, 3049323471, 3921009573, 961987163,
   1508970993, 2453635748, 2870763221, 3624381080, 310598401,
   607225278, 1426881987, 1925078388, 2162078206, 2614888103,
   3248222580, 3835390401, 4022224774, 264347078, 604807628,
   770255983, 1249150122, 1555081692, 1996064986, 2554220882,
   2821834349, 2952996808, 3210313671, 3336571891, 3584528711,
   113926993, 338241895, 666307205, 773529912, 1294757372,
   1396182291, 1695183700, 1986661051, 2177026350, 2456956037,
   2730485921, 2820302411, 3259730800, 3345764771, 3516065817,
   3600352804, 4094571909, 275423344, 430227734, 506948616,
   659060556, 883997877, 958139571, 1322822218, 1537002063,
   1747873779, 1955562222, 2024104815, 2227730452, 2361852424,
   2428436474, 2756734187, 3204031479, 3329325298]

def sha256H0 : List Nat :=
  [1779033703, 3144134277, 1013904242, 2773480762,
   1359893119, 2600822924, 528734635, 1541459225]

/-- Big-endian bytes of `x`, `n` bytes wide. -/
def beBytes (n x : Nat) : List Nat :=
  (List.range n).map (fun i => (x >>> (8 * (n - 1 - i))) % 256)

/-- SHA-256 padding: append 0x80, zero bytes, and the 64-bit bit length. -/
def padBytes (msg : List Nat) : List Nat :=
  let z := (119 - msg.length % 64) % 64
  msg ++ [128] ++ List.replicate z 0 ++ beBytes 8 (msg.length * 8)

/-- Split a byte list into 64-byte blocks (fuel-structured so that the
kernel can evaluate it; `fuel = l.length` always suffices). -/
def chunks64Fuel : Nat → List Nat → List (List Nat)
  | 0, _ => []
  | _, [] => []
  | fuel + 1, l => l.take 64 :: chunks64Fuel fuel (l.drop 64)

def chunks64 (l : List Nat) : List (List Nat) := chunks64Fuel l.length l

/-- Big-endian 32-bit words of a 64-byte block. -/
def blockWords (block : List Nat) : List Nat :=
  match block with
  | b0 :: b1 :: b2 :: b3 :: rest =>
      (((b0 * 256 + b1) * 256 + b2) * 256 + b3) :: blockWords rest
  | _ => []

/-- Extend the 16 message-schedule words to 64 (48 extension steps). -/
def extendWordsFuel : Nat → List Nat → List Nat
  | 0, w => w
  | fuel + 1, w =>
      extendWordsFuel fuel (w ++ [add32
        (add32 (ssig1 (w.getD (w.length - 2) 0)) (w.getD (w.length - 7) 0))
        (add32 (ssig0 (w.getD (w.length - 15) 0)) (w.getD (w.length - 16) 0))])

def extendWords (w : List Nat) : List Nat := extendWordsFuel 48 w

/-- One SHA-256 compression round on the 8-word state. -/
def roundStep (st : List Nat) (kw : Nat × Nat) : List Nat :=
  match st with
  | [a, b, c, d, e, f, g, h] =>
      let t1 := add32 (add32 (add32 h (bsig1 e)) (add32 (chooseFn e f g) kw.1)) kw.2
      let t2 := add32 (bsig0 a) (majFn a b c)
      [add32 t1 t2, a, b, c, add32 d t1, e, f, g]
  | other => other

def compress (hs : List Nat) (block : List Nat) : List Nat :=
  let ws := extendWords (blockWords block)
  let fin := (sha256K.zip ws).foldl roundStep hs
  (hs.zip fin).map (fun p => add32 p.1 p.2)

/-- SHA-256 digest (32 bytes) of a byte list. -/
def sha256Bytes (msg : List Nat) : List Nat :=
  let hs := (chunks64 (padBytes msg)).foldl compress sha256H0
  hs.foldr (fun h acc => beBytes 4 h ++ acc) []

def hexDigit (n : Nat) : Char :=
  Char.ofNat (if n < 10 then 48 + n else 87 + n)

def bytesToHex (bytes : List Nat) : String :=
  ⟨bytes.foldr (fun b acc => hexDigit (b / 16) :: hexDigit (b % 16) :: acc) []⟩

/-- UTF-8 encoding of one character. -/
def utf8Char (c : Char) : List Nat :=
  let n := c.toNat
  if n < 128 then [n]
  else if n < 2048 then [192 + n / 64, 128 + n % 64]
  else if n < 65536 then [224 + n / 4096, 128 + (n / 64) % 64, 128 + n % 64]
  else [240 + n / 262144, 128 + (n / 4096) % 64, 128 + (n / 64) % 64, 128 + n % 64]

def utf8Encode (s : String) : List Nat :=
  s.data.foldr (fun c acc => utf8Char c ++ acc) []

/-- Embeds `MerkleTree.hash_data`: SHA-256 hex digest of the UTF-8 encoding
(forensics.py line 16, merkle_anchor.py line 19). -/
def hash_data (data : String) : String :=
  bytesToHex (sha256Bytes (utf8Encode data))

example : hash_data "abc" =
    "ba7816bf8f01cfea414140de5dae2223b00361a396177a9cb410ff61f20015ad" := by
  decide

example : hash_data "" =
    "e3b0c44298fc1c149afbf4c8996fb92427ae41e4649b934ca495991b7852b855" := by
  decide

/-! ## Canonical JSON serialization (json.dumps(obj, sort_keys=True))

The repository canonicalizes dictionaries with `json.dumps(..., sort_keys=True)`
(default separators `", "` and `": "`). Numbers are carried as their rendered
literals, since only the serialized text feeds the hash. The escape function
covers the characters the repository's records contain (no control characters
or non-ASCII appear in them). Nesting depth is bounded by a fuel argument;
depth 32 covers every record the code builds. -/

inductive JValue where
  | jnull : JValue
  | jbool : Bool → JValue
  | jnum : String → JValue
  | jstr : String → JValue
  | jarr : List JValue → JValue
  | jobj : List (String × JValue) → JValue

def jsonEscapeChar (c : Char) : List Char :=
  if c = '"' then ['\\', '"']
  else if c = '\\' then ['\\', '\\']
  else [c]

def jsonEscape (s : String) : String :=
  ⟨s.data.foldr (fun c acc => jsonEscapeChar c ++ acc) []⟩

def jsonQuote (s : String) : String := "\"" ++ jsonEscape s ++ "\""

/-- Python string `<` (lexicographic on code points). -/
def charsLt : List Char → List Char → Bool
  | [], [] => false
  | [], _ :: _ => true
  | _ :: _, [] => false
  | a :: as, b :: bs =>
      if a.toNat < b.toNat then true
      else if b.toNat < a.toNat then false
      else charsLt as bs

def pyStrLt (a b : String) : Bool := charsLt a.data b.data

def insertByKey (p : String × JValue) :
    List (String × JValue) → List (String × JValue)
  | [] => [p]
  | q :: rest => if pyStrLt q.1 p.1 then q :: insertByKey p rest else p :: q :: rest

/-- Embeds `sorted(fields)` by key, as `sort_keys=True` does (stable). -/
def sortByKey : List (String × JValue) → List (String × JValue)
  | [] => []
  | p :: rest => insertByKey p (sortByKey rest)

def dumpsFuel : Nat → JValue → String
  | 0, _ => ""
  | _ + 1, .jnull => "null"
  | _ + 1, .jbool b => if b then "true" else "false"
  | _ + 1, .jnum lit => lit
  | _ + 1, .jstr s => jsonQuote s
  | fuel + 1, .jarr xs =>
      "[" ++ String.intercalate ", " (xs.map (dumpsFuel fuel)) ++ "]"
  | fuel + 1, .jobj fs =>
      "\x7b" ++ String.intercalate ", "
        ((sortByKey fs).map (fun kv => jsonQuote kv.1 ++ ": " ++ dumpsFuel fuel kv.2))
      ++ "\x7d"

/-- Embeds `json.dumps(v, sort_keys=True)`. -/
def dumps (v : JValue) : String := dumpsFuel 32 v

/-- Embeds `d.get(key)`: the value under `key`, or JSON null when absent or when
the value is not a dict. -/
def jGet (v : JValue) (key : String) : JValue :=
  match v with
  | .jobj fs => go fs
  | _ => .jnull
where go : List (String × JValue) → JValue
  | [] => .jnull
  | kv :: rest => if kv.1 = key then kv.2 else go rest

/-- Remove one key from a JSON object (other values unchanged). -/
def jRemove (v : JValue) (key : String) : JValue :=
  match v with
  | .jobj fs => .jobj (fs.filter (fun kv => kv.1 ≠ key))
  | other => other

example : dumps (.jobj [("b", .jnum "1"), ("a", .jstr "x")])
    = "\x7b\"a\": \"x\", \"b\": 1\x7d" := by decide

/-! ## Merkle tree and forensic bundles (src/backend/app/forensics.py)

`src/merkle_anchor.py` contains a textually identical `build_tree` (lines
24-54), so the definitions below embed both. Python's in-place
`hashes.append(hashes[-1])` mutation of the caller's list is modelled by
returning the post-call value of the argument explicitly. -/

namespace Forensics

/-- One combination level of `build_tree`'s inner `for` loop (lines 36-41):
hash adjacent pairs left-to-right; an unpaired trailing element is paired
with itself (`right = current_level[i]` fallback). -/
def nextLevel : List String → List String
  | [] => []
  | [x] => [hash_data (x ++ x)]
  | x :: y :: rest => hash_data (x ++ y) :: nextLevel rest

/-- The `while len(current_level) > 1` loop of `build_tree`, then
`current_level[0] if current_level else ""`. Fuel-structured so the kernel
can evaluate it; `fuel = length` always suffices because each level halves. -/
def rootLoopFuel : Nat → List String → String
  | 0, cur => cur.headD ""
  | fuel + 1, cur =>
      if cur.length > 1 then rootLoopFuel fuel (nextLevel cur) else cur.headD ""

/-- Embeds `if len(hashes) % 2 == 1: hashes.append(hashes[-1])` (lines 27-28),
the in-place mutation of the caller's list. -/
def dupIfOdd (hashes : List String) : List String :=
  if hashes.length % 2 = 1 then hashes ++ [hashes.getLastD ""] else hashes

structure BuildTreeResult where
  root : String
  /-- The value of the caller's `hashes` list after the call (the list is
  mutated in place when its length is odd). -/
  mutatedArg : List String
deriving DecidableEq

/-- Embeds `MerkleTree.build_tree` (lines 21-50), reduced to the fields the claims
concern: the `"root"` entry of the returned dict and the post-call value of
the argument list. -/
def build_tree (hashes : List String) : BuildTreeResult :=
  if hashes = [] then ⟨"", hashes⟩
  else
    let hs := dupIfOdd hashes
    ⟨rootLoopFuel hs.length hs, hs⟩

/-- Embeds `MerkleTree.create_merkle_root` (lines 52-59): root plus the post-call
value of the argument list (it passes the caller's list straight through to
`build_tree`, which mutates it). -/
def create_merkle_root (artifact_hashes : List String) : String × List String :=
  if artifact_hashes = [] then ("", artifact_hashes)
  else
    let r := build_tree artifact_hashes
    (r.root, r.mutatedArg)

/-- Python `list.index`: index of the first occurrence. -/
def pyIndex (l : List String) (x : String) : Nat :=
  match l with
  | [] => 0
  | a :: rest => if a = x then 0 else pyIndex rest x + 1

/-- The `while len(current_level) > 1` loop of `generate_proof`
(lines 74-89): record the sibling when it exists, move to the parent level,
halve the index. -/
def proofLoopFuel : Nat → List String → Nat → List String
  | 0, _, _ => []
  | fuel + 1, cur, idx =>
      if cur.length > 1 then
        (if idx ^^^ 1 < cur.length then [cur.getD (idx ^^^ 1) ""] else [])
          ++ proofLoopFuel fuel (nextLevel cur) (idx / 2)
      else []

/-- Embeds `MerkleTree.generate_proof` (lines 62-91). -/
def generate_proof (artifact_hashes : List String) (item_hash : String) :
    List String :=
  if item_hash ∈ artifact_hashes then
    proofLoopFuel artifact_hashes.length artifact_hashes
      (pyIndex artifact_hashes item_hash)
  else []

/-- Embeds `verify_proof` (lines 112-121): refold the proof with the running hash
always on the left. -/
def verify_proof (root : String) (proof : List String) (item_hash : String) :
    Bool :=
  (proof.foldl (fun cur sib => hash_data (cur ++ sib)) item_hash) == root

/-- Embeds `art.get("hash")` filtered by Python truthiness
(`if art.get("hash")`): present, a string, and non-empty. -/
def artifactHash (art : JValue) : Option String :=
  match jGet art "hash" with
  | .jstr s => if s.isEmpty then none else some s
  | _ => none

/-- Embeds `[art.get("hash") for art in artifacts if art.get("hash")]` (line 136). -/
def extractHashes (artifacts : List JValue) : List String :=
  artifacts.filterMap artifactHash

/-- Embeds `sign_stub` (lines 94-109), reduced to the `tx_hash` field; the
`time.time()` interpolated into the hashed text is environment input and is
passed in as its rendered form. -/
def sign_stub (merkle_root : String) (nowRepr : String) : String :=
  hash_data (merkle_root ++ "_" ++ nowRepr)

structure ForensicBundle where
  forensic_id : String
  alert_id : String
  merkle_root : String
  artifact_hashes : List String
  proofs : List (String × List String)
  blockchain_tx_hash : String
deriving DecidableEq

/-- Embeds `create_forensic_bundle` (lines 124-171). `nowMs` and `nowRepr` stand
for the wall-clock reads (`time.time()`); the `timestamp`/`datetime` fields,
being those reads verbatim, are not repeated in the structure. The
`artifact_hashes` field receives the list *after* `build_tree` mutated it in
place (the same object is passed through `create_merkle_root`), and
`generate_proof` is likewise called on the mutated list. -/
def create_forensic_bundle (alert_data : JValue) (artifacts : List JValue)
    (nowMs : Nat) (nowRepr : String) : ForensicBundle :=
  let artifact_hashes := extractHashes artifacts
  let artifact_hashes :=
    if artifact_hashes = [] then [hash_data (dumps alert_data)]
    else artifact_hashes
  let rootAndList := create_merkle_root artifact_hashes
  let merkle_root := rootAndList.1
  let mutated := rootAndList.2
  let proofs := artifacts.filterMap (fun art =>
    match artifactHash art with
    | some h => some (h, generate_proof mutated h)
    | none => none)
  { forensic_id := "FORENSIC_" ++ toString nowMs
    alert_id :=
      match jGet alert_data "alert_id" with
      | .jstr s => s
      | _ => "unknown"
    merkle_root := merkle_root
    artifact_hashes := mutated
    proofs := proofs
    blockchain_tx_hash := sign_stub merkle_root nowRepr }

end Forensics

open Forensics

/-- Claim C1 (code bug). Merkle round-trip fails on the code: `verify_proof`
always refolds with the running hash on the left
(`combined = current_hash + sibling_hash`), but the tree hashed
`left + right`, so the proof of any leaf that is ever a right child does not
verify. On the repository's own `test_verify_forensic_bundle` input
`["artifact1", "artifact2"]`, the proof generated for `"artifact2"` (index 1)
is rejected while the proof for `"artifact1"` (index 0) is accepted — the
repository's test asserts bundle verification succeeds, which requires both. -/
theorem merkle_roundtrip_fails_for_right_child :
    (verify_proof (build_tree ["artifact1", "artifact2"]).root
      (generate_proof ["artifact1", "artifact2"] "artifact2") "artifact2"
        = false)
    ∧ (verify_proof (build_tree ["artifact1", "artifact2"]).root
      (generate_proof ["artifact1", "artifact2"] "artifact1") "artifact1"
        = true) := by
  decide

/-- Claim C8 counterexample. Building the tree from the one-leaf list `["ab"]`
does not yield the lone leaf as root: the odd-length branch duplicates the
leaf and the loop hashes the pair, so the root is `hash_data ("ab" ++ "ab")`,
a 64-character digest distinct from `"ab"`. -/
theorem merkle_singleton_root_not_leaf :
    (build_tree ["ab"]).root ≠ "ab" := by
  decide

/-- Claim C8 (amended): building from a one-leaf list `[a]` yields
`hash_data (a ++ a)` — the leaf paired with its forced duplicate — as the
root, and building from the empty list yields the empty string. -/
theorem merkle_root_base_cases (a : String) :
    (build_tree [a]).root = hash_data (a ++ a)
      ∧ (build_tree []).root = "" := by
  constructor
  · simp [build_tree, dupIfOdd, rootLoopFuel, nextLevel]
  · simp [build_tree]

/-- Claim C10: `build_tree` appends a duplicate of the last element to the
caller's list in place whenever the list has odd length, and
`create_forensic_bundle` records that mutated list — original hashes plus
the duplicated last leaf — in the bundle's `artifact_hashes` field. -/
theorem build_tree_mutates_and_bundle_records_duplicate
    (alert_data : JValue) (artifacts : List JValue) (nowMs : Nat)
    (nowRepr : String)
    (hodd : (extractHashes artifacts).length % 2 = 1) :
    (build_tree (extractHashes artifacts)).mutatedArg
        = extractHashes artifacts
            ++ [(extractHashes artifacts).getLastD ""]
    ∧ (create_forensic_bundle alert_data artifacts nowMs nowRepr).artifact_hashes
        = extractHashes artifacts
            ++ [(extractHashes artifacts).getLastD ""] := by
  have hne : extractHashes artifacts ≠ [] := by
    intro h
    rw [h] at hodd
    simp at hodd
  constructor
  · simp [build_tree, hne, dupIfOdd, hodd]
  · simp [create_forensic_bundle, hne, create_merkle_root, build_tree,
      dupIfOdd, hodd]

/-- Witness for C10 at a concrete three-artifact input. -/
theorem build_tree_mutates_witness :
    (extractHashes [JValue.jobj [("hash", JValue.jstr "h1")],
        JValue.jobj [("hash", JValue.jstr "h2")],
        JValue.jobj [("hash", JValue.jstr "h3")]]).length % 2 = 1
    ∧ (create_forensic_bundle (JValue.jobj [("alert_id", JValue.jstr "A1")])
        [JValue.jobj [("hash", JValue.jstr "h1")],
         JValue.jobj [("hash", JValue.jstr "h2")],
         JValue.jobj [("hash", JValue.jstr "h3")]] 5 "5.0").artifact_hashes
      = ["h1", "h2", "h3", "h3"] := by
  refine ⟨by decide, ?_⟩
  have h := build_tree_mutates_and_bundle_records_duplicate
    (JValue.jobj [("alert_id", JValue.jstr "A1")])
    [JValue.jobj [("hash", JValue.jstr "h1")],
     JValue.jobj [("hash", JValue.jstr "h2")],
     JValue.jobj [("hash", JValue.jstr "h3")]] 5 "5.0" (by decide)
  rw [h.2]
  decide

/-! ## Shared helpers: deques and Python number rendering -/

/-- Embeds `collections.deque(maxlen := n)` append: keep the most recent `n`. -/
def dequeAppend (maxlen : Nat) (l : List α) (x : α) : List α :=
  let l2 := l ++ [x]
  l2.drop (l2.length - maxlen)

/-- Python `l[-n:]`. -/
def takeLast (n : Nat) (l : List α) : List α := l.drop (l.length - n)

def padZeros (d : Nat) (s : String) : String :=
  ⟨List.replicate (d - s.length) '0'⟩ ++ s

/-- Embeds `f"{q:.df}"` on a rational. The values the repository formats are exact
at this precision, where Python's ties-to-even on binary floats and this
half-up rounding agree; the rendering only feeds human-readable reason
text, which no claim inspects numerically. -/
def pyFixed (d : Nat) (q : ℚ) : String :=
  let scaled : ℤ := ⌊q * (10 : ℚ) ^ d + 1 / 2⌋
  let sign := if scaled < 0 then "-" else ""
  sign ++ toString (scaled.natAbs / 10 ^ d) ++ "."
    ++ padZeros d (toString (scaled.natAbs % 10 ^ d))

/-- The f-string rendering of a Python number; the events the repository
constructs carry integer sizes, rendered as integers. -/
def pyNum (q : ℚ) : String :=
  if q.den = 1 then toString q.num else pyFixed 1 q

/-- Python `%` on numbers (result has the divisor's sign: floor-based). -/
def qmod (a b : ℚ) : ℚ := a - b * ⌊a / b⌋

/-! ## Detector (src/detector.py)

One `Event` per line of the event stream; `dict.get` with default `0` is
modelled by structure fields with default values. -/

namespace Detector

structure Event where
  event_type : String
  size_kb : ℚ := 0
  size_mb : ℚ := 0
  timestamp : ℚ
deriving DecidableEq

/-- Rule thresholds (`RuleBasedDetector.__init__`, lines 28-33). -/
def CLIPBOARD_SIZE_THRESHOLD_KB : ℚ := 200

def SCREENSHOT_BURST_COUNT : Nat := 5

def SCREENSHOT_BURST_WINDOW_SEC : ℚ := 10

def FILE_TRANSFER_SIZE_THRESHOLD_MB : ℚ := 50

def RAPID_FILE_TRANSFER_COUNT : Nat := 2

def RAPID_FILE_TRANSFER_WINDOW_SEC : ℚ := 30

/-- The three history deques (`maxlen=100`) that `RuleBasedDetector` keeps
and mutates across calls. -/
structure RuleBasedDetectorState where
  clipboard_history : List Event := []
  screenshot_history : List Event := []
  file_transfer_history : List Event := []
deriving DecidableEq

/-- Embeds `check_clipboard_size_rule` (lines 35-47); the event is appended to the
history before the threshold test. -/
def check_clipboard_size_rule (st : RuleBasedDetectorState) (event : Event) :
    RuleBasedDetectorState × Bool × String :=
  if event.event_type ≠ "clipboard_copy" then (st, false, "")
  else
    let st := { st with
      clipboard_history := dequeAppend 100 st.clipboard_history event }
    if event.size_kb > CLIPBOARD_SIZE_THRESHOLD_KB then
      (st, true, "Clipboard copy exceeds threshold: " ++ pyNum event.size_kb
        ++ "KB > " ++ pyNum CLIPBOARD_SIZE_THRESHOLD_KB ++ "KB")
    else (st, false, "")

/-- Embeds `check_screenshot_burst_rule` (lines 49-67): append, then count
screenshots whose timestamp is within the burst window of this event's. -/
def check_screenshot_burst_rule (st : RuleBasedDetectorState) (event : Event) :
    RuleBasedDetectorState × Bool × String :=
  if event.event_type ≠ "screenshot" then (st, false, "")
  else
    let st := { st with
      screenshot_history := dequeAppend 100 st.screenshot_history event }
    let current_time := event.timestamp
    let recent := st.screenshot_history.filter
      (fun e => decide (current_time - e.timestamp ≤ SCREENSHOT_BURST_WINDOW_SEC))
    if recent.length ≥ SCREENSHOT_BURST_COUNT then
      (st, true, "Screenshot burst detected: " ++ toString recent.length
        ++ " screenshots in " ++ pyNum SCREENSHOT_BURST_WINDOW_SEC ++ " seconds")
    else (st, false, "")

/-- Embeds `check_file_transfer_rule` (lines 69-94). -/
def check_file_transfer_rule (st : RuleBasedDetectorState) (event : Event) :
    RuleBasedDetectorState × Bool × String :=
  if event.event_type ≠ "file_transfer" then (st, false, "")
  else
    let st := { st with
      file_transfer_history := dequeAppend 100 st.file_transfer_history event }
    let current_time := event.timestamp
    if event.size_mb > FILE_TRANSFER_SIZE_THRESHOLD_MB then
      (st, true, "Large file transfer detected: " ++ pyNum event.size_mb
        ++ "MB > " ++ pyNum FILE_TRANSFER_SIZE_THRESHOLD_MB ++ "MB")
    else
      let recent := st.file_transfer_history.filter
        (fun e => decide (current_time - e.timestamp ≤ RAPID_FILE_TRANSFER_WINDOW_SEC))
      if recent.length ≥ RAPID_FILE_TRANSFER_COUNT then
        let total := (recent.map Event.size_mb).sum
        (st, true, "Rapid file transfer detected: " ++ toString recent.length
          ++ " files (" ++ pyFixed 1 total ++ "MB total) in "
          ++ pyNum RAPID_FILE_TRANSFER_WINDOW_SEC ++ " seconds")
      else (st, false, "")

/-- Embeds `evaluate_rules` (lines 96-112): run the three checks in order,
threading the detector's mutable histories, and collect the triggered
reasons; `is_alert` is `len(reasons) > 0`. -/
def evaluate_rules (st : RuleBasedDetectorState) (event : Event) :
    RuleBasedDetectorState × Bool × List String :=
  let r1 := check_clipboard_size_rule st event
  let reasons1 : List String := if r1.2.1 then ["Rule 1: " ++ r1.2.2] else []
  let r2 := check_screenshot_burst_rule r1.1 event
  let reasons2 : List String :=
    reasons1 ++ (if r2.2.1 then ["Rule 2: " ++ r2.2.2] else [])
  let r3 := check_file_transfer_rule r2.1 event
  let reasons : List String :=
    reasons2 ++ (if r3.2.1 then ["Rule 3: " ++ r3.2.2] else [])
  (r3.1, decide (reasons.length > 0), reasons)

/-! ### ML scorer (src/detector.py lines 115-203)

The trained model artifact is an external object; it enters the embedding
as an opaque scoring function, loaded (`some`) or absent (`none`), exactly
the two states `load_model` leaves `self.model` in. -/

structure Model where
  /-- `model.predict_proba(features)[0][1]`. -/
  predict_proba_anomaly : List ℚ → ℚ
  /-- `model.feature_importances_` when the attribute exists. -/
  feature_importances : Option (List ℚ)

structure HistoryContext where
  clipboard_count_1min : Nat := 0
  screenshot_count_1min : Nat := 0
  file_transfer_count_1min : Nat := 0
  clipboard_total_kb_1min : ℚ := 0
  file_transfer_total_mb_1min : ℚ := 0
deriving DecidableEq

/-- Embeds `MLDetector.extract_features` (lines 139-177): the fixed 11-feature
vector. -/
def extract_features (event : Event) (ctx : HistoryContext) : List ℚ :=
  [if event.event_type = "clipboard_copy" then 1 else 0,
   if event.event_type = "screenshot" then 1 else 0,
   if event.event_type = "file_transfer" then 1 else 0]
  ++ (if event.event_type = "clipboard_copy" then [event.size_kb / 1000, 0]
      else if event.event_type = "file_transfer" then [0, event.size_mb]
      else [0, 0])
  ++ [qmod event.timestamp 86400 / 86400,
      (ctx.clipboard_count_1min : ℚ) / 10,
      (ctx.screenshot_count_1min : ℚ) / 10,
      (ctx.file_transfer_count_1min : ℚ) / 10,
      ctx.clipboard_total_kb_1min / 1000,
      ctx.file_transfer_total_mb_1min]

/-- The second return value of `predict`: either the error dict
`{"error": ...}` or the scored dict
`{"anomaly_score", "feature_importance", "threshold"}`. -/
inductive MLInfo where
  | err : String → MLInfo
  | scored : ℚ → List (String × ℚ) → ℚ → MLInfo
deriving DecidableEq

/-- Embeds `self.feature_names or [f"feature_{i}" ...]` zipped with the
importances (lines 190-194). -/
def featureImportanceMap (feature_names : List String)
    (importances : List ℚ) : List (String × ℚ) :=
  (if feature_names = []
   then (List.range importances.length).map (fun i => "feature_" ++ toString i)
   else feature_names).zip importances

/-- Embeds `MLDetector.predict` (lines 179-203): with no model loaded it returns
score `0.0` and the `"Model not loaded"` diagnostic; otherwise the model's
anomaly probability with importances and the `0.5` threshold. -/
def MLDetector.predict (model : Option Model) (feature_names : List String)
    (event : Event) (ctx : HistoryContext) : ℚ × MLInfo :=
  match model with
  | none => (0, .err "Model not loaded")
  | some m =>
      let score := m.predict_proba_anomaly (extract_features event ctx)
      let fi := match m.feature_importances with
        | some imps => featureImportanceMap feature_names imps
        | none => []
      (score, .scored score fi (1/2))

end Detector

open Detector

/-- A concrete screenshot event (timestamp 0). -/
def screenshotEvent : Event := { event_type := "screenshot", timestamp := 0 }

/-- The detector state after `n` successive `evaluate_rules` calls on
`screenshotEvent`, starting from the freshly constructed detector. -/
def stateAfter : Nat → RuleBasedDetectorState
  | 0 => {}
  | n + 1 => (evaluate_rules (stateAfter n) screenshotEvent).1

/-- Claim C4 counterexample. The rule evaluator is stateful: every
`check_screenshot_burst_rule` call appends the event to
`self.screenshot_history`, so the fourth and fifth successive calls of
`evaluate_rules` on the *same* screenshot event return different
`(is_alert, reasons)` pairs (the fifth sees five recent screenshots and
alerts; the fourth saw four and did not). -/
theorem rule_eval_not_pure :
    (evaluate_rules (stateAfter 3) screenshotEvent).2
      ≠ (evaluate_rules (evaluate_rules (stateAfter 3) screenshotEvent).1
          screenshotEvent).2 := by
  with_unfolding_all decide

/-- Claim C4 (amended). Rule evaluation is deterministic in the pair
(event, evaluator pre-state), but each call mutates the evaluator: on a
screenshot event the event is appended to the internal `screenshot_history`
deque and the alert decision is a function of that *updated* history — so
two successive calls on the same event can return different pairs. -/
theorem rule_eval_deterministic_in_state
    (st : RuleBasedDetectorState) (e : Event)
    (h : e.event_type = "screenshot") :
    (evaluate_rules st e).1.screenshot_history
        = dequeAppend 100 st.screenshot_history e
    ∧ ((evaluate_rules st e).2.1 = true ↔
        ((dequeAppend 100 st.screenshot_history e).filter
            (fun x => decide (e.timestamp - x.timestamp
              ≤ SCREENSHOT_BURST_WINDOW_SEC))).length
          ≥ SCREENSHOT_BURST_COUNT) := by
  have h1 : e.event_type ≠ "clipboard_copy" := by rw [h]; decide
  have h2 : ¬ (e.event_type ≠ "screenshot") := not_not_intro h
  have h3 : e.event_type ≠ "file_transfer" := by rw [h]; decide
  by_cases hb : ((dequeAppend 100 st.screenshot_history e).filter
      (fun x => decide (e.timestamp - x.timestamp
        ≤ SCREENSHOT_BURST_WINDOW_SEC))).length ≥ SCREENSHOT_BURST_COUNT
  · simp only [evaluate_rules, check_clipboard_size_rule,
      check_screenshot_burst_rule, check_file_transfer_rule,
      if_pos h1, if_neg h2, if_pos h3, if_pos hb]
    exact ⟨trivial, by simpa using hb⟩
  · simp only [evaluate_rules, check_clipboard_size_rule,
      check_screenshot_burst_rule, check_file_transfer_rule,
      if_pos h1, if_neg h2, if_pos h3, if_neg hb]
    exact ⟨trivial, by simpa using hb⟩

/-- Witness for `rule_eval_deterministic_in_state` at the fresh detector
state and a concrete screenshot event. -/
theorem rule_eval_deterministic_in_state_witness :
    (evaluate_rules {} screenshotEvent).1.screenshot_history
        = dequeAppend 100
            ({} : RuleBasedDetectorState).screenshot_history screenshotEvent
    ∧ ((evaluate_rules {} screenshotEvent).2.1 = true ↔
        ((dequeAppend 100
              ({} : RuleBasedDetectorState).screenshot_history screenshotEvent).filter
            (fun x => decide (screenshotEvent.timestamp - x.timestamp
              ≤ SCREENSHOT_BURST_WINDOW_SEC))).length
          ≥ SCREENSHOT_BURST_COUNT) :=
  rule_eval_deterministic_in_state {} screenshotEvent rfl

/-! ## Backend detection engine (src/backend/app/detector.py)

The backend `RuleBasedDetector` and `MLDetectorStub` repeat the logic of
src/detector.py with different reason strings; `Event`, the history-deque
state, `Model`, `HistoryContext` and `MLInfo` are shared shapes, and
`extract_features` (backend lines 125-157) is textually identical to
src/detector.py lines 139-177, so those definitions are reused. -/

namespace Backend

open Detector

/-- Embeds `check_clipboard_rule` (backend lines 29-40). -/
def check_clipboard_rule (st : RuleBasedDetectorState) (event : Event) :
    RuleBasedDetectorState × Bool × String :=
  if event.event_type ≠ "clipboard_copy" then (st, false, "")
  else
    let st := { st with
      clipboard_history := dequeAppend 100 st.clipboard_history event }
    if event.size_kb > 200 then
      (st, true, "Clipboard copy exceeds threshold: " ++ pyNum event.size_kb
        ++ "KB > " ++ pyNum 200 ++ "KB")
    else (st, false, "")

/-- Embeds `check_screenshot_burst_rule` (backend lines 42-58). -/
def check_screenshot_burst_rule (st : RuleBasedDetectorState) (event : Event) :
    RuleBasedDetectorState × Bool × String :=
  if event.event_type ≠ "screenshot" then (st, false, "")
  else
    let st := { st with
      screenshot_history := dequeAppend 100 st.screenshot_history event }
    let recent := st.screenshot_history.filter
      (fun e => decide (event.timestamp - e.timestamp ≤ 10))
    if recent.length ≥ 5 then
      (st, true, "Screenshot burst: " ++ toString recent.length
        ++ " screenshots in " ++ pyNum 10 ++ "s")
    else (st, false, "")

/-- Embeds `check_file_transfer_rule` (backend lines 60-81). -/
def check_file_transfer_rule (st : RuleBasedDetectorState) (event : Event) :
    RuleBasedDetectorState × Bool × String :=
  if event.event_type ≠ "file_transfer" then (st, false, "")
  else
    let st := { st with
      file_transfer_history := dequeAppend 100 st.file_transfer_history event }
    if event.size_mb > 50 then
      (st, true, "Large file transfer: " ++ pyNum event.size_mb
        ++ "MB > " ++ pyNum 50 ++ "MB")
    else
      let recent := st.file_transfer_history.filter
        (fun e => decide (event.timestamp - e.timestamp ≤ 30))
      if recent.length ≥ 2 then
        (st, true, "Rapid file transfers: " ++ toString recent.length
          ++ " files (" ++ pyFixed 1 (recent.map Event.size_mb).sum
          ++ "MB) in " ++ pyNum 30 ++ "s")
      else (st, false, "")

/-- Embeds `RuleBasedDetector.evaluate` (backend lines 83-99). -/
def RuleBasedDetector.evaluate (st : RuleBasedDetectorState) (event : Event) :
    RuleBasedDetectorState × Bool × List String :=
  let r1 := check_clipboard_rule st event
  let reasons1 : List String := if r1.2.1 then ["Rule 1: " ++ r1.2.2] else []
  let r2 := check_screenshot_burst_rule r1.1 event
  let reasons2 : List String :=
    reasons1 ++ (if r2.2.1 then ["Rule 2: " ++ r2.2.2] else [])
  let r3 := check_file_transfer_rule r2.1 event
  let reasons : List String :=
    reasons2 ++ (if r3.2.1 then ["Rule 3: " ++ r3.2.2] else [])
  (r3.1, decide (reasons.length > 0), reasons)

/-- Embeds `MLDetectorStub.predict` (backend lines 159-186). With no model loaded
it returns `random.uniform(0.3, 0.7)` — the sampled value enters the
embedding as the `uniformSample` argument — and the
`"Model not loaded, using stub"` diagnostic; with a model it behaves as
`MLDetector.predict` does. -/
def MLDetectorStub.predict (model : Option Model) (feature_names : List String)
    (uniformSample : ℚ) (event : Event) (ctx : HistoryContext) : ℚ × MLInfo :=
  match model with
  | none => (uniformSample, .err "Model not loaded, using stub")
  | some m =>
      let score := m.predict_proba_anomaly (extract_features event ctx)
      let fi := match m.feature_importances with
        | some imps => featureImportanceMap feature_names imps
        | none => []
      (score, .scored score fi (1/2))

/-- Embeds `DetectionEngine.get_history_context` (backend lines 197-212; identical
to src/detector.py lines 223-240). -/
def get_history_context (history_window : List Event) (current_time : ℚ) :
    HistoryContext :=
  let recent := history_window.filter
    (fun e => decide (e.timestamp ≥ current_time - 60))
  { clipboard_count_1min :=
      (recent.filter (fun e => e.event_type == "clipboard_copy")).length
    screenshot_count_1min :=
      (recent.filter (fun e => e.event_type == "screenshot")).length
    file_transfer_count_1min :=
      (recent.filter (fun e => e.event_type == "file_transfer")).length
    clipboard_total_kb_1min :=
      ((recent.filter (fun e => e.event_type == "clipboard_copy")).map
        Event.size_kb).sum
    file_transfer_total_mb_1min :=
      ((recent.filter (fun e => e.event_type == "file_transfer")).map
        Event.size_mb).sum }

structure Verdict where
  is_alert : Bool
  detection_methods : List String
  reasons : List String
  severity : String
  ml_score : ℚ
  ml_info : MLInfo
deriving DecidableEq

structure DetectionEngineState where
  rule_state : RuleBasedDetectorState := {}
  model : Option Model := none
  feature_names : List String := []
  history_window : List Event := []

/-- The verdict-assembly tail of `DetectionEngine.evaluate` (backend lines
227-250): combine `(rule_alert, rule_reasons)` with the ML score. -/
def combineVerdict (rule_alert : Bool) (rule_reasons : List String)
    (ml_score : ℚ) (ml_info : MLInfo) : Verdict :=
  let ml_alert : Bool := decide (ml_score > 1/2)
  let detection_methods :=
    (if rule_alert then ["rule_based"] else [])
      ++ (if ml_alert then ["ml_based"] else [])
  let reasons :=
    (if rule_alert then rule_reasons else [])
      ++ (if ml_alert then
            ["ML anomaly score: " ++ pyFixed 3 ml_score ++ " (threshold: 0.5)"]
          else [])
  let is_alert := rule_alert || ml_alert
  { is_alert := is_alert
    detection_methods := detection_methods
    reasons := reasons
    severity :=
      if rule_alert && ml_alert then "high"
      else if is_alert then "medium" else "low"
    ml_score := ml_score
    ml_info := ml_info }

/-- Embeds `DetectionEngine.evaluate` (backend lines 214-250): append to the
engine's history window, run the rules, score via the ML stub, and
assemble the verdict. -/
def DetectionEngine.evaluate (st : DetectionEngineState) (uniformSample : ℚ)
    (event : Event) : DetectionEngineState × Verdict :=
  let history := dequeAppend 1000 st.history_window event
  let r := RuleBasedDetector.evaluate st.rule_state event
  let ctx := get_history_context history event.timestamp
  let p := MLDetectorStub.predict st.model st.feature_names uniformSample
    event ctx
  ({ st with rule_state := r.1, history_window := history },
    combineVerdict r.2.1 r.2.2 p.1 p.2)

end Backend

/-- Helper for the severity table: the verdict-assembly function realizes
the severity table in terms of its own `detection_methods` field. -/
theorem combineVerdict_severity_table (ra : Bool) (rs : List String)
    (s : ℚ) (mi : MLInfo) :
    ((Backend.combineVerdict ra rs s mi).severity = "high"
      ↔ ("rule_based" ∈ (Backend.combineVerdict ra rs s mi).detection_methods
          ∧ "ml_based" ∈ (Backend.combineVerdict ra rs s mi).detection_methods))
    ∧ ((Backend.combineVerdict ra rs s mi).severity = "medium"
      ↔ Xor' ("rule_based" ∈ (Backend.combineVerdict ra rs s mi).detection_methods)
          ("ml_based" ∈ (Backend.combineVerdict ra rs s mi).detection_methods))
    ∧ ((Backend.combineVerdict ra rs s mi).severity = "low"
      ↔ (¬ "rule_based" ∈ (Backend.combineVerdict ra rs s mi).detection_methods
          ∧ ¬ "ml_based" ∈ (Backend.combineVerdict ra rs s mi).detection_methods))
    ∧ ((Backend.combineVerdict ra rs s mi).severity = "low"
      ↔ (Backend.combineVerdict ra rs s mi).is_alert = false) := by
  cases ra <;> by_cases hm : (2⁻¹ : ℚ) < s <;>
    simp [Backend.combineVerdict, hm, Xor']

/-- Claim C3: for every evaluated event the verdict's severity is `"high"`
iff both the rule result and the ML result alerted (both methods listed),
`"medium"` iff exactly one did, `"low"` iff neither did, and `"low"`
coincides with `is_alert = false`. -/
theorem severity_table (st : Backend.DetectionEngineState) (u : ℚ) (e : Event) :
    (((Backend.DetectionEngine.evaluate st u e).2.severity = "high"
      ↔ ("rule_based" ∈ (Backend.DetectionEngine.evaluate st u e).2.detection_methods
          ∧ "ml_based" ∈ (Backend.DetectionEngine.evaluate st u e).2.detection_methods))
    ∧ ((Backend.DetectionEngine.evaluate st u e).2.severity = "medium"
      ↔ Xor' ("rule_based" ∈ (Backend.DetectionEngine.evaluate st u e).2.detection_methods)
          ("ml_based" ∈ (Backend.DetectionEngine.evaluate st u e).2.detection_methods))
    ∧ ((Backend.DetectionEngine.evaluate st u e).2.severity = "low"
      ↔ (¬ "rule_based" ∈ (Backend.DetectionEngine.evaluate st u e).2.detection_methods
          ∧ ¬ "ml_based" ∈ (Backend.DetectionEngine.evaluate st u e).2.detection_methods))
    ∧ ((Backend.DetectionEngine.evaluate st u e).2.severity = "low"
      ↔ (Backend.DetectionEngine.evaluate st u e).2.is_alert = false)) :=
  combineVerdict_severity_table _ _ _ _

/-- Claim C6 counterexample. The backend ML scorer with no model loaded does
*not* return `0.0`: it returns the value sampled by
`random.uniform(0.3, 0.7)` (here `1/2`) with the stub diagnostic. -/
theorem ml_stub_score_not_zero :
    (Backend.MLDetectorStub.predict none []
        (1/2) { event_type := "clipboard_copy", size_kb := 500, timestamp := 1000 }
        {}).1 ≠ 0
    ∧ Backend.MLDetectorStub.predict none []
        (1/2) { event_type := "clipboard_copy", size_kb := 500, timestamp := 1000 }
        {}
      = (1/2, .err "Model not loaded, using stub") := by
  exact ⟨by with_unfolding_all decide, rfl⟩

/-- Claim C6 (amended): with no model artifact loaded, the standalone
`MLDetector.predict` returns score `0.0` with the `"Model not loaded"`
diagnostic (and cannot fail), while the backend `MLDetectorStub.predict`
instead returns the value sampled from `random.uniform(0.3, 0.7)` together
with the `"Model not loaded, using stub"` diagnostic. -/
theorem ml_predict_model_absent (e : Event) (ctx : HistoryContext)
    (fn : List String) (u : ℚ) :
    MLDetector.predict none fn e ctx = (0, .err "Model not loaded")
    ∧ Backend.MLDetectorStub.predict none fn u e ctx
        = (u, .err "Model not loaded, using stub") :=
  ⟨rfl, rfl⟩

/-! ## Forensic records (src/detector.py lines 282-309) -/

namespace Detector

/-- The alert dict built by `HybridDetector.process_event` (lines 261-279),
as it is serialized: numeric fields carry their JSON rendering. -/
structure Alert where
  alert_id : String
  timestamp : String
  event : JValue
  detection_methods : List String
  reasons : List String
  severity : String
  ml_score : String
  ml_info : JValue

/-- The alert dict as a JSON value, in construction order (key sorting
happens at serialization). -/
def alertJson (a : Alert) : JValue :=
  .jobj [("alert_id", .jstr a.alert_id),
         ("timestamp", .jnum a.timestamp),
         ("event", a.event),
         ("detection_methods", .jarr (a.detection_methods.map .jstr)),
         ("reasons", .jarr (a.reasons.map .jstr)),
         ("severity", .jstr a.severity),
         ("ml_score", .jnum a.ml_score),
         ("ml_info", a.ml_info)]

/-- Embeds `HybridDetector._compute_hash` (lines 305-309): the SHA-256 hex digest
of `json.dumps(alert, sort_keys=True)` — a hash of the *alert* dict. -/
def compute_hash (alert : Alert) : String :=
  hash_data (dumps (alertJson alert))

/-- Embeds `HybridDetector.generate_forensic_json` (lines 282-303): the forensic
record it writes. `dt` stands for
`datetime.fromtimestamp(...).isoformat()`, an environment-dependent (local
timezone) rendering that enters as an explicit argument. -/
def generate_forensic_json (dt : String) (alert : Alert) : JValue :=
  .jobj [("forensic_id", .jstr alert.alert_id),
         ("timestamp", .jnum alert.timestamp),
         ("datetime", .jstr dt),
         ("event_type", jGet alert.event "event_type"),
         ("detection_methods", .jarr (alert.detection_methods.map .jstr)),
         ("reasons", .jarr (alert.reasons.map .jstr)),
         ("severity", .jstr alert.severity),
         ("ml_score", .jnum alert.ml_score),
         ("event_details", alert.event),
         ("containment_status", .jstr "pending"),
         ("hash", .jstr (compute_hash alert))]

end Detector

/-- A concrete alert for the forensic-hash counterexample. -/
def sampleAlert : Detector.Alert :=
  { alert_id := "ALERT_1700000000000"
    timestamp := "1000.0"
    event := .jobj [("event_type", .jstr "clipboard_copy"),
                    ("size_kb", .jnum "500"), ("timestamp", .jnum "1000.0")]
    detection_methods := ["rule_based"]
    reasons := ["Rule 1: Clipboard copy exceeds threshold: 500KB > 200KB"]
    severity := "medium"
    ml_score := "0.0"
    ml_info := .jobj [("error", .jstr "Model not loaded")] }

/-- Claim C7 counterexample. The stored `hash` field is the SHA-256 of the
canonicalized *alert*, not of the record itself: recanonicalizing the
stored record minus its `hash` field (whose keys include `forensic_id`,
`datetime`, `event_details`, `containment_status` — none of which the
hashed alert has) and re-hashing does not reproduce the stored hash. -/
theorem forensic_hash_not_reproducible_from_record :
    jGet (Detector.generate_forensic_json "1970-01-01T00:16:40" sampleAlert)
        "hash"
      = .jstr (Detector.compute_hash sampleAlert)
    ∧ Detector.compute_hash sampleAlert
      ≠ hash_data (dumps (jRemove
          (Detector.generate_forensic_json "1970-01-01T00:16:40" sampleAlert)
          "hash")) :=
  ⟨rfl, by decide⟩

/-- Claim C7 (amended): the record's `hash` field equals the SHA-256 of the
canonical serialization (sorted keys) of the *alert* the record was
generated from; it is deterministic in the alert — in particular
independent of the environment-supplied datetime rendering. -/
theorem forensic_hash_is_alert_hash (dt dtOther : String) (a : Detector.Alert) :
    jGet (Detector.generate_forensic_json dt a) "hash"
        = .jstr (hash_data (dumps (Detector.alertJson a)))
    ∧ jGet (Detector.generate_forensic_json dt a) "hash"
        = jGet (Detector.generate_forensic_json dtOther a) "hash" :=
  ⟨rfl, rfl⟩

/-! ## VNC proxy (src/sentinelvnc_proxy.py)

Per-session traffic monitoring and the forwarding loop. Directions are the
source's strings `"client_to_server"` / `"server_to_client"`. The two
forwarding tasks and external `contain_session` calls are interleaved as an
explicit event trace for one direction; wall-clock reads enter as the
chunk's `now`. -/

namespace Proxy

structure Sample where
  timestamp : ℚ
  direction : String
  bytes : Nat
deriving DecidableEq

/-- Session tracking dict (`_create_session`, lines 69-86). -/
structure Session where
  session_id : String
  client_ip : String
  client_port : Nat
  upstream_ip : String
  upstream_port : Nat
  start_time : ℚ
  client_to_server_bytes : Nat := 0
  server_to_client_bytes : Nat := 0
  client_to_server_packets : Nat := 0
  server_to_client_packets : Nat := 0
  recent_samples : List Sample := []
  last_activity : ℚ
deriving DecidableEq

/-- Heuristic thresholds (`VNCProxy.__init__`, lines 36-52). -/
structure ProxyConfig where
  contain_on_alert : Bool := false
  clipboard_threshold_kb : Nat := 200
  frameburst_threshold_bytes : Nat := 10485760
  file_transfer_rate_threshold_kbps : Nat := 1000
  file_transfer_window_sec : Nat := 5
deriving DecidableEq

/-- Embeds `VNCProxy._create_session` (lines 69-86). -/
def create_session (session_id client_ip : String) (client_port : Nat)
    (server_host : String) (server_port : Nat) (now : ℚ) : Session :=
  { session_id := session_id, client_ip := client_ip
    client_port := client_port, upstream_ip := server_host
    upstream_port := server_port, start_time := now, last_activity := now }

/-- The alert dicts `_check_heuristics` can return (lines 122-156), one
constructor per `"heuristic"` value, carrying the dict's numeric fields
and its `"description"` string. -/
inductive HeuristicAlert where
  | clipboard_exfiltration : Nat → Nat → String → HeuristicAlert
  | frameburst : Nat → Nat → String → HeuristicAlert
  | file_transfer_like : Nat → ℚ → Nat → String → HeuristicAlert
deriving DecidableEq

/-- The `"heuristic"` field of the returned alert dict, when any. -/
def heuristicName : Option HeuristicAlert → Option String
  | none => none
  | some (.clipboard_exfiltration _ _ _) => some "clipboard_exfiltration"
  | some (.frameburst _ _ _) => some "frameburst"
  | some (.file_transfer_like _ _ _ _) => some "file_transfer_like"

/-- The unconditional session mutations at the head of `_check_heuristics`
(lines 93-110): touch `last_activity`, bump the directional byte/packet
counters, append the sample to the bounded ring. -/
def updateSession (session : Session) (direction : String) (data_size : Nat)
    (now : ℚ) : Session :=
  let session := { session with last_activity := now }
  let session :=
    if direction = "client_to_server" then
      { session with
        client_to_server_bytes := session.client_to_server_bytes + data_size,
        client_to_server_packets := session.client_to_server_packets + 1 }
    else
      { session with
        server_to_client_bytes := session.server_to_client_bytes + data_size,
        server_to_client_packets := session.server_to_client_packets + 1 }
  { session with
    recent_samples :=
      dequeAppend 100 session.recent_samples ⟨now, direction, data_size⟩ }

/-- Heuristic 1's burst total (lines 115-119): client→server bytes among
the last 10 samples. -/
def recentClientBytes (session : Session) : Nat :=
  (((takeLast 10 session.recent_samples).filter
      (fun s => s.direction == "client_to_server")).map Sample.bytes).sum

/-- Heuristic 3's window total (lines 141-146): client→server bytes whose
timestamp is within the transfer window. -/
def windowClientBytes (cfg : ProxyConfig) (session : Session) (now : ℚ) : Nat :=
  ((session.recent_samples.filter (fun s =>
      decide (s.timestamp ≥ now - (cfg.file_transfer_window_sec : ℚ))
        && (s.direction == "client_to_server"))).map Sample.bytes).sum

/-- Embeds `window_kbps` (line 147). -/
def windowClientKbps (cfg : ProxyConfig) (session : Session) (now : ℚ) : ℚ :=
  ((windowClientBytes cfg session now : ℚ) * 8)
    / ((cfg.file_transfer_window_sec : ℚ) * 1024)

/-- Embeds `VNCProxy._check_heuristics` (lines 88-158): mutate the session, then
test the three heuristics in order, returning at the *first* hit. -/
def check_heuristics (cfg : ProxyConfig) (session : Session)
    (direction : String) (data_size : Nat) (now : ℚ) :
    Session × Option HeuristicAlert :=
  let session := updateSession session direction data_size now
  (session,
   if direction = "client_to_server"
       ∧ recentClientBytes session > cfg.clipboard_threshold_kb * 1024 then
     some (.clipboard_exfiltration (recentClientBytes session)
       cfg.clipboard_threshold_kb
       ("Client->server burst detected: "
         ++ pyFixed 1 ((recentClientBytes session : ℚ) / 1024) ++ "KB"))
   else if direction = "server_to_client"
       ∧ data_size > cfg.frameburst_threshold_bytes then
     some (.frameburst data_size cfg.frameburst_threshold_bytes
       ("Large frame burst: "
         ++ pyFixed 1 ((data_size : ℚ) / (1024 * 1024)) ++ "MB"))
   else if direction = "client_to_server"
       ∧ windowClientKbps cfg session now
           > (cfg.file_transfer_rate_threshold_kbps : ℚ) then
     some (.file_transfer_like (windowClientBytes cfg session now)
       (windowClientKbps cfg session now) cfg.file_transfer_rate_threshold_kbps
       ("Sustained high rate: " ++ pyFixed 1 (windowClientKbps cfg session now)
         ++ " kbps over " ++ pyNum (cfg.file_transfer_window_sec : ℚ) ++ "s"))
   else none)

/-- Inputs arriving at one direction's forwarding loop: a received chunk
(with the wall-clock read and, should an alert fire, the outcome of the
alert POST — `none` for a transport failure, `some b` for the backend's
`action == "contain"` answer `b`), or an external `contain_session` call
interleaved between iterations. -/
inductive ProxyEvent where
  | chunk : Nat → ℚ → Option Bool → ProxyEvent
  | externalContain : ProxyEvent
deriving DecidableEq

structure ForwardState where
  session : Session
  /-- `session_id ∈ self.contained_sessions`. -/
  contained : Bool := false
  /-- Total bytes passed to `dest.sendall` by this direction's loop. -/
  forwardedBytes : Nat := 0
  /-- The loop was exited by the containment `break`. -/
  loopEnded : Bool := false
deriving DecidableEq

/-- One iteration of `forward_data`'s loop on a chunk (lines 233-257), or
the effect of `VNCProxy.contain_session` (lines 307-313). On an alert,
`_send_alert` answers `{"action": "contain"}` when the backend said so or
`contain_on_alert` is set (line 199), and `None` when the POST failed
(lines 204-206) — in which case line 251's `if result and ...` containment
test fails whatever the configuration. The
`session_id not in contained_sessions` check (line 239) gates only the
monitoring block: when the session is already contained the chunk skips
monitoring and still reaches `dest.sendall(data)` (line 257); only the
containment `break` (line 254) stops forwarding. -/
def forwardStep (cfg : ProxyConfig) (direction : String) (st : ForwardState) :
    ProxyEvent → ForwardState
  | .externalContain => { st with contained := true }
  | .chunk size now alertResponse =>
      if st.loopEnded then st
      else if st.contained = false then
        let r := check_heuristics cfg st.session direction size now
        match r.2 with
        | some _ =>
            if (match alertResponse with
                | none => false
                | some backendSaysContain =>
                    backendSaysContain || cfg.contain_on_alert) then
              { st with session := r.1, contained := true, loopEnded := true }
            else
              { st with
                session := r.1
                forwardedBytes := st.forwardedBytes + size }
        | none =>
            { st with
              session := r.1
              forwardedBytes := st.forwardedBytes + size }
      else
        { st with forwardedBytes := st.forwardedBytes + size }

def runForward (cfg : ProxyConfig) (direction : String) (st : ForwardState)
    (evs : List ProxyEvent) : ForwardState :=
  evs.foldl (forwardStep cfg direction) st

/-- Iterated `_check_heuristics` session mutation over a chunk trace
`(direction, size, now)` — the session as the forwarder leaves it at a
quiescent point. -/
def observe (cfg : ProxyConfig) (s : Session)
    (chunks : List (String × Nat × ℚ)) : Session :=
  chunks.foldl (fun s c => (check_heuristics cfg s c.1 c.2.1 c.2.2).1) s

/-- Total bytes of the ring's samples in one direction. -/
def ringBytes (s : Session) (dir : String) : Nat :=
  ((s.recent_samples.filter (fun x => x.direction == dir)).map Sample.bytes).sum

end Proxy

open Proxy

/-- Claim C2 (code bug). After an external `contain_session` call the
forwarding loop keeps forwarding: the `session_id not in contained_sessions`
check wraps only the monitoring block, so the next chunk skips monitoring
and still reaches `dest.sendall`. Here a session is externally contained
(state shows `contained = true`, nothing forwarded yet) and a subsequent
100-byte chunk is nevertheless forwarded. -/
theorem bytes_forwarded_after_external_containment :
    (forwardStep {} "client_to_server"
        { session := create_session "s" "127.0.0.1" 40000 "localhost" 5901 0 }
        .externalContain).contained = true
    ∧ (forwardStep {} "client_to_server"
        { session := create_session "s" "127.0.0.1" 40000 "localhost" 5901 0 }
        .externalContain).forwardedBytes = 0
    ∧ (forwardStep {} "client_to_server"
        (forwardStep {} "client_to_server"
          { session := create_session "s" "127.0.0.1" 40000 "localhost" 5901 0 }
          .externalContain)
        (.chunk 100 1 none)).forwardedBytes = 100 := by
  with_unfolding_all decide

/-- Claim C5 counterexample. A single 700000-byte client→server chunk into a
fresh session makes both the R1 burst condition (700000 > 204800) and the
R3 rate condition (≈1093.75 kbps > 1000) true, yet `_check_heuristics`
returns only the `clipboard_exfiltration` alert — the first match returns
before the file-transfer heuristic is examined, so no result ever lists
both reasons. -/
theorem both_conditions_single_heuristic :
    heuristicName (check_heuristics {} (create_session "s" "c" 1 "u" 2 0)
        "client_to_server" 700000 0).2 = some "clipboard_exfiltration"
    ∧ recentClientBytes
        (check_heuristics {} (create_session "s" "c" 1 "u" 2 0)
          "client_to_server" 700000 0).1
        > (200 : Nat) * 1024
    ∧ windowClientKbps {}
        (check_heuristics {} (create_session "s" "c" 1 "u" 2 0)
          "client_to_server" 700000 0).1 0
        > (1000 : ℚ) := by
  with_unfolding_all decide

/-- Claim C5 (amended): `_check_heuristics` returns at most one heuristic —
the first triggered in the order clipboard burst, frameburst, transfer
rate. Whenever the R1 burst condition holds on a client→server chunk the
result is the `clipboard_exfiltration` alert alone, whether or not the R3
rate condition also holds; no R3 entry is produced. -/
theorem check_heuristics_first_match (cfg : ProxyConfig) (session : Session)
    (data_size : Nat) (now : ℚ)
    (h1 : recentClientBytes
        (updateSession session "client_to_server" data_size now)
      > cfg.clipboard_threshold_kb * 1024) :
    heuristicName
        (check_heuristics cfg session "client_to_server" data_size now).2
      = some "clipboard_exfiltration" := by
  simp [check_heuristics, heuristicName, h1]

/-- Witness for `check_heuristics_first_match` on the concrete chunk of
the counterexample. -/
theorem check_heuristics_first_match_witness :
    (recentClientBytes
        (updateSession (create_session "s" "c" 1 "u" 2 0)
          "client_to_server" 700000 0)
      > (({} : ProxyConfig)).clipboard_threshold_kb * 1024)
    ∧ heuristicName
        (check_heuristics {} (create_session "s" "c" 1 "u" 2 0)
          "client_to_server" 700000 0).2
      = some "clipboard_exfiltration" :=
  ⟨by with_unfolding_all decide,
   check_heuristics_first_match {} (create_session "s" "c" 1 "u" 2 0) 700000 0
     (by with_unfolding_all decide)⟩

/-- The session returned by `_check_heuristics` is the one mutated by its
unconditional head, whatever the heuristics decide. -/
theorem check_heuristics_fst (cfg : ProxyConfig) (session : Session)
    (direction : String) (data_size : Nat) (now : ℚ) :
    (check_heuristics cfg session direction data_size now).1
      = updateSession session direction data_size now := rfl

/-- Appending below capacity keeps every element. -/
theorem dequeAppend_of_lt {α : Type} (n : Nat) (l : List α) (x : α)
    (h : l.length < n) : dequeAppend n l x = l ++ [x] := by
  have hz : l.length + 1 - n = 0 := by omega
  simp [dequeAppend, hz]

/-- Client→server byte counter accumulated by iterated
`_check_heuristics`. -/
theorem observe_c2s_bytes (cfg : ProxyConfig)
    (chunks : List (String × Nat × ℚ)) : ∀ (s : Session),
    (observe cfg s chunks).client_to_server_bytes
      = s.client_to_server_bytes
        + ((chunks.filter (fun c => c.1 == "client_to_server")).map
            (fun c => c.2.1)).sum := by
  induction chunks with
  | nil => intro s; simp [observe]
  | cons c rest ih =>
      intro s
      simp only [observe, List.foldl_cons] at ih ⊢
      rw [ih, check_heuristics_fst]
      by_cases hd : c.1 = "client_to_server" <;>
        simp [updateSession, hd] <;> omega

/-- Server→client byte counter accumulated by iterated
`_check_heuristics`: every chunk whose direction is not the
client→server string lands in the `else` branch. -/
theorem observe_s2c_bytes (cfg : ProxyConfig)
    (chunks : List (String × Nat × ℚ)) : ∀ (s : Session),
    (observe cfg s chunks).server_to_client_bytes
      = s.server_to_client_bytes
        + ((chunks.filter (fun c => !(c.1 == "client_to_server"))).map
            (fun c => c.2.1)).sum := by
  induction chunks with
  | nil => intro s; simp [observe]
  | cons c rest ih =>
      intro s
      simp only [observe, List.foldl_cons] at ih ⊢
      rw [ih, check_heuristics_fst]
      by_cases hd : c.1 = "client_to_server" <;>
        simp [updateSession, hd] <;> omega

/-- Below ring capacity no sample is evicted: the ring is the initial ring
plus one sample per chunk, in order. -/
theorem observe_ring_no_eviction (cfg : ProxyConfig)
    (chunks : List (String × Nat × ℚ)) : ∀ (s : Session),
    s.recent_samples.length + chunks.length ≤ 100 →
    (observe cfg s chunks).recent_samples
      = s.recent_samples
          ++ chunks.map (fun c => (⟨c.2.2, c.1, c.2.1⟩ : Sample)) := by
  induction chunks with
  | nil => intro s _; simp [observe]
  | cons c rest ih =>
      intro s hlen
      simp only [observe, List.foldl_cons] at ih ⊢
      have hstep : ((check_heuristics cfg s c.1 c.2.1 c.2.2).1).recent_samples
          = s.recent_samples ++ [(⟨c.2.2, c.1, c.2.1⟩ : Sample)] := by
        rw [check_heuristics_fst]
        by_cases hd : c.1 = "client_to_server" <;>
          simp [updateSession, hd, dequeAppend_of_lt] <;>
          · rw [dequeAppend_of_lt]
            simp at hlen
            omega
      rw [ih _ (by rw [hstep]; simp at hlen ⊢; omega), hstep]
      simp

/-- Claim C9 (amended): as long as at most 100 chunks have been observed
(the ring's capacity; the ring is shared by both directions), at any
quiescent point the per-direction byte totals of the ring's samples equal
the session's byte counters. Beyond 100 observed chunks eviction removes
samples and the ring total falls behind the counter. -/
theorem sampling_completeness_up_to_capacity (cfg : ProxyConfig)
    (chunks : List (String × Nat × ℚ)) (sid cip : String) (cport : Nat)
    (uip : String) (uport : Nat) (t0 : ℚ)
    (hlen : chunks.length ≤ 100)
    (hdir : ∀ c ∈ chunks,
      c.1 = "client_to_server" ∨ c.1 = "server_to_client") :
    ringBytes (observe cfg (create_session sid cip cport uip uport t0) chunks)
        "client_to_server"
      = (observe cfg (create_session sid cip cport uip uport t0)
          chunks).client_to_server_bytes
    ∧ ringBytes (observe cfg (create_session sid cip cport uip uport t0) chunks)
        "server_to_client"
      = (observe cfg (create_session sid cip cport uip uport t0)
          chunks).server_to_client_bytes := by
  have hring :
      (observe cfg (create_session sid cip cport uip uport t0)
        chunks).recent_samples
      = chunks.map (fun c => (⟨c.2.2, c.1, c.2.1⟩ : Sample)) := by
    have h := observe_ring_no_eviction cfg chunks
      (create_session sid cip cport uip uport t0)
      (by simpa [create_session] using hlen)
    simpa [create_session] using h
  constructor
  · rw [observe_c2s_bytes]
    unfold ringBytes
    rw [hring]
    simp [create_session, List.filter_map, Function.comp_def]
  · rw [observe_s2c_bytes]
    have hfil : chunks.filter (fun c => !(c.1 == "client_to_server"))
        = chunks.filter (fun c => c.1 == "server_to_client") := by
      apply List.filter_congr
      intro c hc
      rcases hdir c hc with h | h <;> simp [h]
    rw [hfil]
    unfold ringBytes
    rw [hring]
    simp [create_session, List.filter_map, Function.comp_def]

/-- Witness for `sampling_completeness_up_to_capacity` on a concrete
two-chunk trace. -/
theorem sampling_completeness_witness :
    ringBytes (observe {} (create_session "s" "c" 1 "u" 2 0)
        [("client_to_server", 5, (0 : ℚ)), ("server_to_client", 7, (0 : ℚ))])
        "client_to_server"
      = (observe {} (create_session "s" "c" 1 "u" 2 0)
          [("client_to_server", 5, (0 : ℚ)),
           ("server_to_client", 7, (0 : ℚ))]).client_to_server_bytes
    ∧ ringBytes (observe {} (create_session "s" "c" 1 "u" 2 0)
        [("client_to_server", 5, (0 : ℚ)), ("server_to_client", 7, (0 : ℚ))])
        "server_to_client"
      = (observe {} (create_session "s" "c" 1 "u" 2 0)
          [("client_to_server", 5, (0 : ℚ)),
           ("server_to_client", 7, (0 : ℚ))]).server_to_client_bytes :=
  sampling_completeness_up_to_capacity {}
    [("client_to_server", 5, (0 : ℚ)), ("server_to_client", 7, (0 : ℚ))]
    "s" "c" 1 "u" 2 0 (by decide) (by with_unfolding_all decide)

/-- Claim C9 counterexample. After 101 one-byte client→server chunks the
byte counter reads 101 but the ring holds only the last 100 samples, so
the ring total is 100: the claimed equality fails once eviction starts,
i.e. it does not hold for arbitrarily many observed chunks. -/
theorem sampling_incomplete_after_eviction :
    (observe {} (create_session "s" "c" 1 "u" 2 0)
        (List.replicate 101
          ("client_to_server", 1, (0 : ℚ)))).client_to_server_bytes = 101
    ∧ ringBytes (observe {} (create_session "s" "c" 1 "u" 2 0)
        (List.replicate 101 ("client_to_server", 1, (0 : ℚ))))
        "client_to_server" = 100 := by
  with_unfolding_all decide

end SentinelVNC
